import Mathlib

/-!
Verification of the BLE Cycling Power Meter core (oc-power repository).

This file shallowly embeds the connection/advertising/subscription state
machine and the measurement encoder of the repository:

* `ble_power_service.c` — the service-layer globals (`power_conn_handle`,
  `power_notify_enabled`, `cumulative_crank_revs`, `last_crank_event_time`)
  become the fields of `ServiceState`; the functions
  `power_service_set_conn_handle`, `power_service_subscribe_cb` and
  `send_power_notification` become Lean functions over that state.
* `ble_power_service.h` — the packed wire struct
  `cycling_power_measurement_t` becomes a Lean structure together with its
  little-endian 8-byte serialization (`packetBytes`), which is what the
  C code hands flat to `ble_hs_mbuf_from_flat`.
* `gap.c` — `start_advertising` and `gap_event_handler` become functions
  parameterised by the transport's return codes (`GapEnv`), producing the
  updated service state, the advertising action taken, and the handler's
  return code.

Machine integers are modelled as `Nat` (for the `uint16_t` values, with
explicit `% 65536` where the C arithmetic wraps) and `Int` (for the
`int16_t` power value and the `int` return codes of the NimBLE API).
Transport effects (mbuf allocation success, send return code, the return
codes of `ble_gap_adv_set_fields` / `ble_gap_adv_start` /
`ble_gap_conn_find`) are environment inputs.
-/

/-- NimBLE's sentinel `BLE_HS_CONN_HANDLE_NONE` (0xFFFF): "no connection". -/
def BLE_HS_CONN_HANDLE_NONE : Nat := 0xFFFF

/-- `CPM_FLAG_CRANK_REV_DATA_PRESENT` from `ble_power_service.h`. -/
def CPM_FLAG_CRANK_REV_DATA_PRESENT : Nat := 0x0020

/-- The mutable globals of `ble_power_service.c`:
`power_conn_handle`, `power_notify_enabled`, `cumulative_crank_revs`,
`last_crank_event_time`.  The two counters are `uint16_t`; the state is
well-formed when they are below 2^16. -/
structure ServiceState where
  power_conn_handle : Nat
  power_notify_enabled : Bool
  cumulative_crank_revs : Nat
  last_crank_event_time : Nat
  deriving Repr, DecidableEq

/-- The packed 8-byte `cycling_power_measurement_t` of `ble_power_service.h`:
`flags : uint16_t`, `instantaneous_power : int16_t`,
`cumulative_crank_revs : uint16_t`, `last_crank_event_time : uint16_t`. -/
structure cycling_power_measurement_t where
  flags : Nat
  instantaneous_power : Int
  cumulative_crank_revs : Nat
  last_crank_event_time : Nat
  deriving Repr, DecidableEq

/-- Little-endian bytes of a `uint16_t` value. -/
def u16ToLE (x : Nat) : List Nat := [x % 256, x / 256 % 256]

/-- Little-endian bytes of an `int16_t` value (two's complement). -/
def i16ToLE (x : Int) : List Nat := u16ToLE (x % 65536).toNat

/-- Read a `uint16_t` back from two little-endian bytes. -/
def leToU16 (b0 b1 : Nat) : Nat := b0 + 256 * b1

/-- Read an `int16_t` back from two little-endian bytes (two's complement). -/
def leToI16 (b0 b1 : Nat) : Int :=
  if leToU16 b0 b1 < 32768 then (leToU16 b0 b1 : Int)
  else (leToU16 b0 b1 : Int) - 65536

/-- The flat byte image of the packed struct, exactly as
`ble_hs_mbuf_from_flat(&measurement, sizeof(measurement))` copies it on the
little-endian target: field order `flags`, `instantaneous_power`,
`cumulative_crank_revs`, `last_crank_event_time`, no padding. -/
def packetBytes (m : cycling_power_measurement_t) : List Nat :=
  u16ToLE m.flags ++ i16ToLE m.instantaneous_power ++
    u16ToLE m.cumulative_crank_revs ++ u16ToLE m.last_crank_event_time

/-- Parse an 8-byte little-endian buffer back into the measurement record. -/
def parsePacket : List Nat → Option cycling_power_measurement_t
  | [b0, b1, b2, b3, b4, b5, b6, b7] =>
      some { flags := leToU16 b0 b1
             instantaneous_power := leToI16 b2 b3
             cumulative_crank_revs := leToU16 b4 b5
             last_crank_event_time := leToU16 b6 b7 }
  | _ => none

/-- `power_service_set_conn_handle` (ble_power_service.c, lines 155-160):
stores the handle; when the handle is the none sentinel it also forces
`power_notify_enabled = false`. -/
def power_service_set_conn_handle (conn_handle : Nat) (s : ServiceState) :
    ServiceState :=
  if conn_handle = BLE_HS_CONN_HANDLE_NONE then
    { s with power_conn_handle := conn_handle, power_notify_enabled := false }
  else
    { s with power_conn_handle := conn_handle }

/-- `power_service_subscribe_cb` (ble_power_service.c, lines 162-168):
when the event's attribute handle equals `power_measurement_val_handle`
(here the parameter `pmvh`), set `power_notify_enabled` to the event's
`cur_notify`; otherwise do nothing.  The event's connection handle is
never examined. -/
def power_service_subscribe_cb (pmvh : Nat) (attr_handle : Nat)
    (cur_notify : Bool) (s : ServiceState) : ServiceState :=
  if attr_handle = pmvh then
    { s with power_notify_enabled := cur_notify }
  else s

/-- The gate consulted before every send — the spec's `may_notify()`:
`power_notify_enabled && power_conn_handle != BLE_HS_CONN_HANDLE_NONE`,
the negation of the early-return guard in `send_power_notification`. -/
def may_notify (s : ServiceState) : Bool :=
  s.power_notify_enabled && !(s.power_conn_handle == BLE_HS_CONN_HANDLE_NONE)

/-- Everything one call of `send_power_notification` does: the updated
globals, the packet it built (if any), the notify request handed to
`ble_gatts_notify_custom` (connection handle, attribute handle, payload)
if one was issued, and whether an `ESP_LOGE` error line was emitted. -/
structure NotifyOutcome where
  state : ServiceState
  packet : Option cycling_power_measurement_t
  sendReq : Option (Nat × Nat × List Nat)
  errorLogged : Bool
  deriving Repr, DecidableEq

/-- `send_power_notification` (ble_power_service.c, lines 170-205).
`allocOk` models whether `ble_hs_mbuf_from_flat` returned a buffer;
`sendRc` models the return code of `ble_gatts_notify_custom`.
The C control flow: bail out when notifications are disabled or no
connection is recorded; otherwise increment `cumulative_crank_revs` by 1
and `last_crank_event_time` by 256 (both `uint16_t`, wrapping), build the
packet from the updated counters, then allocate and send, logging on
failure. -/
def send_power_notification (pmvh : Nat) (power_watts : Int)
    (allocOk : Bool) (sendRc : Int) (s : ServiceState) : NotifyOutcome :=
  if !s.power_notify_enabled || s.power_conn_handle == BLE_HS_CONN_HANDLE_NONE then
    { state := s, packet := none, sendReq := none, errorLogged := false }
  else
    let s' := { s with
      cumulative_crank_revs := (s.cumulative_crank_revs + 1) % 65536,
      last_crank_event_time := (s.last_crank_event_time + 256) % 65536 }
    let m : cycling_power_measurement_t :=
      { flags := CPM_FLAG_CRANK_REV_DATA_PRESENT
        instantaneous_power := power_watts
        cumulative_crank_revs := s'.cumulative_crank_revs
        last_crank_event_time := s'.last_crank_event_time }
    if !allocOk then
      { state := s', packet := some m, sendReq := none, errorLogged := true }
    else
      { state := s', packet := some m,
        sendReq := some (s'.power_conn_handle, pmvh, packetBytes m),
        errorLogged := decide (sendRc ≠ 0) }

/-- The transport return codes a single `start_advertising` call can see:
`rcSetFields` from `ble_gap_adv_set_fields`, `rcAdvStart` from
`ble_gap_adv_start`. -/
structure GapEnv where
  rcSetFields : Int
  rcAdvStart : Int
  deriving Repr, DecidableEq

/-- What one `start_advertising` call did: whether advertising is now
running, whether an `ESP_LOGE` error line was emitted, and how many
`ble_gap_adv_start` requests were issued. -/
structure AdvResult where
  started : Bool
  errorLogged : Bool
  advStartAttempts : Nat
  deriving Repr, DecidableEq

/-- `start_advertising` (gap.c, lines 55-107): set the advertising fields;
on error log and return.  Then issue `ble_gap_adv_start`; on error log and
return.  No retry in either failure path, no service state is touched. -/
def start_advertising (env : GapEnv) : AdvResult :=
  if env.rcSetFields ≠ 0 then
    { started := false, errorLogged := true, advStartAttempts := 0 }
  else if env.rcAdvStart ≠ 0 then
    { started := false, errorLogged := true, advStartAttempts := 1 }
  else
    { started := true, errorLogged := false, advStartAttempts := 1 }

/-- The GAP events dispatched by `gap_event_handler` (gap.c), with the
fields the handler reads.  `connect` carries the handle, the connect
status, and the return code of `ble_gap_conn_find`; `connUpdate` carries
the return code of its `ble_gap_conn_find`. -/
inductive GapEvent where
  | connect (conn_handle : Nat) (status : Int) (connFindRc : Int)
  | disconnect (reason : Int)
  | connUpdate (connFindRc : Int)
  | advComplete (reason : Int)
  | notifyTx (status : Int)
  | subscribe (conn_handle : Nat) (attr_handle : Nat) (cur_notify : Bool)
  | mtu (value : Nat)
  deriving Repr, DecidableEq

/-- The result of one `gap_event_handler` dispatch: the updated service
state, the advertising action taken (if `start_advertising` was invoked),
and the handler's return code. -/
structure StepOut where
  svc : ServiceState
  adv : Option AdvResult
  rc : Int
  deriving Repr, DecidableEq

/-- After a step, is the peripheral advertising because of it?  True
exactly when the step invoked `start_advertising` and the transport
accepted the request. -/
def advertisingAfter (out : StepOut) : Bool :=
  match out.adv with
  | some r => r.started
  | none => false

/-- `gap_event_handler` (gap.c, lines 109-193), case by case:
* `BLE_GAP_EVENT_CONNECT`, status 0: look the connection up; on lookup
  failure return that code without storing anything; otherwise store the
  handle via `power_service_set_conn_handle`.  Status nonzero: restart
  advertising.
* `BLE_GAP_EVENT_DISCONNECT`: clear the handle (which also clears the
  notify flag), then restart advertising — regardless of the reason code.
* `BLE_GAP_EVENT_CONN_UPDATE`: only looks the connection up and logs.
* `BLE_GAP_EVENT_ADV_COMPLETE`: restart advertising.
* `BLE_GAP_EVENT_NOTIFY_TX`, `BLE_GAP_EVENT_MTU`: log only.
* `BLE_GAP_EVENT_SUBSCRIBE`: forward to `power_service_subscribe_cb`. -/
def gap_event_handler (pmvh : Nat) (env : GapEnv) (ev : GapEvent)
    (s : ServiceState) : StepOut :=
  match ev with
  | .connect conn_handle status connFindRc =>
      if status = 0 then
        if connFindRc ≠ 0 then
          { svc := s, adv := none, rc := connFindRc }
        else
          { svc := power_service_set_conn_handle conn_handle s,
            adv := none, rc := 0 }
      else
        { svc := s, adv := some (start_advertising env), rc := 0 }
  | .disconnect _reason =>
      { svc := power_service_set_conn_handle BLE_HS_CONN_HANDLE_NONE s,
        adv := some (start_advertising env), rc := 0 }
  | .connUpdate connFindRc =>
      { svc := s, adv := none, rc := connFindRc }
  | .advComplete _reason =>
      { svc := s, adv := some (start_advertising env), rc := 0 }
  | .notifyTx _status =>
      { svc := s, adv := none, rc := 0 }
  | .subscribe _conn_handle attr_handle cur_notify =>
      { svc := power_service_subscribe_cb pmvh attr_handle cur_notify s,
        adv := none, rc := 0 }
  | .mtu _value =>
      { svc := s, adv := none, rc := 0 }

/-- N consecutive notifier ticks (`power_update_task` in main.c invokes
`send_power_notification` once per 250 ms period), with per-tick streams
of power values, allocation outcomes and send return codes. -/
def tickN (pmvh : Nat) (power : Nat → Int) (alloc : Nat → Bool)
    (rc : Nat → Int) : Nat → ServiceState → ServiceState
  | 0, s => s
  | n + 1, s =>
      tickN pmvh (fun i => power (i + 1)) (fun i => alloc (i + 1))
        (fun i => rc (i + 1)) n
        (send_power_notification pmvh (power 0) (alloc 0) (rc 0) s).state

/-! ## Helper lemmas -/

/-- When the gate is open, the guard of `send_power_notification` is false. -/
theorem send_guard_false (s : ServiceState) (h : may_notify s = true) :
    (!s.power_notify_enabled ||
      s.power_conn_handle == BLE_HS_CONN_HANDLE_NONE) = false := by
  unfold may_notify at h
  simp only [Bool.and_eq_true, Bool.not_eq_true'] at h
  simp [h.1, h.2]

/-- On a permitted tick, the state part of one `send_power_notification`
call advances both counters (mod 2^16) and touches nothing else. -/
theorem send_state_of_gate_open (pmvh : Nat) (power : Int) (alloc : Bool)
    (rc : Int) (s : ServiceState) (h : may_notify s = true) :
    (send_power_notification pmvh power alloc rc s).state =
      { s with
        cumulative_crank_revs := (s.cumulative_crank_revs + 1) % 65536,
        last_crank_event_time := (s.last_crank_event_time + 256) % 65536 } := by
  unfold send_power_notification
  rw [send_guard_false s h]
  cases alloc <;> simp

/-- On a permitted tick, the packet is built from the updated counters. -/
theorem send_packet_of_gate_open (pmvh : Nat) (power : Int) (alloc : Bool)
    (rc : Int) (s : ServiceState) (h : may_notify s = true) :
    (send_power_notification pmvh power alloc rc s).packet =
      some { flags := CPM_FLAG_CRANK_REV_DATA_PRESENT
             instantaneous_power := power
             cumulative_crank_revs := (s.cumulative_crank_revs + 1) % 65536
             last_crank_event_time := (s.last_crank_event_time + 256) % 65536 } := by
  unfold send_power_notification
  rw [send_guard_false s h]
  cases alloc <;> simp

/-- The gate only reads the handle and the flag, both of which a permitted
tick leaves unchanged, so the gate stays open across ticks. -/
theorem may_notify_after_send (pmvh : Nat) (power : Int) (alloc : Bool)
    (rc : Int) (s : ServiceState) (h : may_notify s = true) :
    may_notify (send_power_notification pmvh power alloc rc s).state = true := by
  rw [send_state_of_gate_open pmvh power alloc rc s h]
  unfold may_notify at h ⊢
  exact h

/-- Two little-endian bytes of a 16-bit value decode to the value. -/
theorem leToU16_u16ToLE (x : Nat) (h : x < 65536) :
    leToU16 (x % 256) (x / 256 % 256) = x := by
  unfold leToU16
  omega

/-- Two's-complement round trip for an in-range `int16_t`. -/
theorem leToI16_i16ToLE (x : Int) (h1 : -32768 ≤ x) (h2 : x < 32768) :
    leToI16 ((x % 65536).toNat % 256) ((x % 65536).toNat / 256 % 256) = x := by
  have hu : (x % 65536).toNat < 65536 := by omega
  unfold leToI16
  rw [leToU16_u16ToLE _ hu]
  split <;> omega

/-- Round trip of the full 8-byte packet under field bounds. -/
theorem parsePacket_packetBytes (m : cycling_power_measurement_t)
    (hf : m.flags < 65536)
    (h1 : -32768 ≤ m.instantaneous_power) (h2 : m.instantaneous_power < 32768)
    (hr : m.cumulative_crank_revs < 65536)
    (ht : m.last_crank_event_time < 65536) :
    parsePacket (packetBytes m) = some m := by
  unfold packetBytes i16ToLE u16ToLE
  simp only [List.cons_append, List.nil_append]
  simp only [parsePacket]
  rw [leToU16_u16ToLE _ hf, leToU16_u16ToLE _ hr, leToU16_u16ToLE _ ht,
    leToI16_i16ToLE _ h1 h2]

/-- The serialized packet is always exactly 8 bytes. -/
theorem packetBytes_length (m : cycling_power_measurement_t) :
    (packetBytes m).length = 8 := by
  unfold packetBytes u16ToLE i16ToLE
  simp [u16ToLE]

/-! ## Claim theorems -/

/-- C1: on every disconnect event, regardless of the reason code, the
handler clears the recorded connection handle to the none sentinel and
forces the notify flag to false, re-issues the start-advertising request
unconditionally, and — when the transport accepts the request — the
peripheral is advertising afterwards with identity none and subscription
disabled. -/
theorem disconnect_clears_then_restarts (pmvh : Nat) (env : GapEnv)
    (reason : Int) (s : ServiceState) :
    (gap_event_handler pmvh env (.disconnect reason) s).svc.power_conn_handle =
      BLE_HS_CONN_HANDLE_NONE ∧
    (gap_event_handler pmvh env (.disconnect reason) s).svc.power_notify_enabled =
      false ∧
    may_notify (gap_event_handler pmvh env (.disconnect reason) s).svc = false ∧
    (gap_event_handler pmvh env (.disconnect reason) s).adv =
      some (start_advertising env) ∧
    (env.rcSetFields = 0 ∧ env.rcAdvStart = 0 →
      advertisingAfter (gap_event_handler pmvh env (.disconnect reason) s) = true) := by
  unfold gap_event_handler power_service_set_conn_handle
  refine ⟨by simp, by simp, by simp [may_notify], rfl, ?_⟩
  rintro ⟨h1, h2⟩
  unfold advertisingAfter start_advertising
  simp [h1, h2]

/-- Witness for C1 at a concrete disconnect from handle 7 with subscription
enabled and a transport that accepts the restart. -/
theorem disconnect_clears_then_restarts_witness :
    (gap_event_handler 3 ⟨0, 0⟩ (.disconnect 19) ⟨7, true, 10, 100⟩).svc.power_conn_handle =
      BLE_HS_CONN_HANDLE_NONE ∧
    (gap_event_handler 3 ⟨0, 0⟩ (.disconnect 19) ⟨7, true, 10, 100⟩).svc.power_notify_enabled =
      false ∧
    advertisingAfter (gap_event_handler 3 ⟨0, 0⟩ (.disconnect 19) ⟨7, true, 10, 100⟩) =
      true := by
  have h := disconnect_clears_then_restarts 3 ⟨0, 0⟩ 19 ⟨7, true, 10, 100⟩
  exact ⟨h.1, h.2.1, h.2.2.2.2 ⟨rfl, rfl⟩⟩

/-- C2: a notifier tick on which the recorded handle is the none sentinel
or the notify flag is false is a complete no-op: the state (counters
included) is unchanged, no packet is built, no send request is issued. -/
theorem gated_tick_is_noop (pmvh : Nat) (power : Int) (alloc : Bool)
    (rc : Int) (s : ServiceState)
    (h : s.power_conn_handle = BLE_HS_CONN_HANDLE_NONE ∨
      s.power_notify_enabled = false) :
    send_power_notification pmvh power alloc rc s =
      { state := s, packet := none, sendReq := none, errorLogged := false } := by
  unfold send_power_notification
  rcases h with h | h <;> simp [h]

/-- Witness for C2: disconnected state (handle = none) with the notify
flag still true — the tick changes nothing. -/
theorem gated_tick_is_noop_witness :
    send_power_notification 3 215 true 0
        ⟨BLE_HS_CONN_HANDLE_NONE, true, 10, 100⟩ =
      { state := ⟨BLE_HS_CONN_HANDLE_NONE, true, 10, 100⟩, packet := none,
        sendReq := none, errorLogged := false } :=
  gated_tick_is_noop 3 215 true 0 _ (Or.inl rfl)

/-- C3: a failed connect event and an advertisement-complete event both
leave the service state (hence the none identity) untouched and re-issue
the start-advertising request; when the transport accepts it the
peripheral is advertising again. -/
theorem failed_connect_or_adv_complete_restarts (pmvh : Nat) (env : GapEnv)
    (ch : Nat) (status connFindRc reason : Int) (s : ServiceState)
    (hst : status ≠ 0) :
    (gap_event_handler pmvh env (.connect ch status connFindRc) s).svc = s ∧
    (gap_event_handler pmvh env (.connect ch status connFindRc) s).adv =
      some (start_advertising env) ∧
    (gap_event_handler pmvh env (.advComplete reason) s).svc = s ∧
    (gap_event_handler pmvh env (.advComplete reason) s).adv =
      some (start_advertising env) ∧
    (s.power_conn_handle = BLE_HS_CONN_HANDLE_NONE →
      (gap_event_handler pmvh env (.connect ch status connFindRc) s).svc.power_conn_handle =
        BLE_HS_CONN_HANDLE_NONE) ∧
    (env.rcSetFields = 0 ∧ env.rcAdvStart = 0 →
      advertisingAfter (gap_event_handler pmvh env (.connect ch status connFindRc) s) = true ∧
      advertisingAfter (gap_event_handler pmvh env (.advComplete reason) s) = true) := by
  have hc : gap_event_handler pmvh env (.connect ch status connFindRc) s =
      { svc := s, adv := some (start_advertising env), rc := 0 } := by
    show (if status = 0 then
        if connFindRc ≠ 0 then ({ svc := s, adv := none, rc := connFindRc } : StepOut)
        else { svc := power_service_set_conn_handle ch s, adv := none, rc := 0 }
      else { svc := s, adv := some (start_advertising env), rc := 0 }) =
      { svc := s, adv := some (start_advertising env), rc := 0 }
    rw [if_neg hst]
  have ha : gap_event_handler pmvh env (.advComplete reason) s =
      { svc := s, adv := some (start_advertising env), rc := 0 } := rfl
  rw [hc, ha]
  refine ⟨rfl, rfl, rfl, rfl, fun h => h, ?_⟩
  rintro ⟨h1, h2⟩
  unfold advertisingAfter start_advertising
  simp [h1, h2]

/-- Witness for C3: the Scenario 5 input, ConnectEstablished(id=9,
success=false) with no identity recorded and a transport that accepts the
restart. -/
theorem failed_connect_or_adv_complete_restarts_witness :
    (gap_event_handler 3 ⟨0, 0⟩ (.connect 9 531 0)
        ⟨BLE_HS_CONN_HANDLE_NONE, false, 0, 0⟩).svc =
      ⟨BLE_HS_CONN_HANDLE_NONE, false, 0, 0⟩ ∧
    advertisingAfter (gap_event_handler 3 ⟨0, 0⟩ (.connect 9 531 0)
        ⟨BLE_HS_CONN_HANDLE_NONE, false, 0, 0⟩) = true ∧
    advertisingAfter (gap_event_handler 3 ⟨0, 0⟩ (.advComplete 0)
        ⟨BLE_HS_CONN_HANDLE_NONE, false, 0, 0⟩) = true := by
  have h := failed_connect_or_adv_complete_restarts 3 ⟨0, 0⟩ 9 531 0 0
    ⟨BLE_HS_CONN_HANDLE_NONE, false, 0, 0⟩ (by decide)
  exact ⟨h.1, (h.2.2.2.2.2 ⟨rfl, rfl⟩).1, (h.2.2.2.2.2 ⟨rfl, rfl⟩).2⟩

/-- C8: a subscribe event whose attribute handle matches the power
measurement characteristic sets the notify flag to the event's value and
changes nothing else; a non-matching event changes nothing at all; and
delivering the same event twice equals delivering it once. -/
theorem subscribe_matching_sets_flag_idempotent (pmvh attr : Nat) (b : Bool)
    (s : ServiceState) :
    (attr = pmvh →
      power_service_subscribe_cb pmvh attr b s =
        { s with power_notify_enabled := b }) ∧
    (attr ≠ pmvh → power_service_subscribe_cb pmvh attr b s = s) ∧
    power_service_subscribe_cb pmvh attr b
        (power_service_subscribe_cb pmvh attr b s) =
      power_service_subscribe_cb pmvh attr b s := by
  unfold power_service_subscribe_cb
  by_cases h : attr = pmvh <;> simp [h]

/-- Witness for C8: matching handle sets the flag; unrelated handle is
ignored; repeating the matching event is idempotent. -/
theorem subscribe_matching_sets_flag_idempotent_witness :
    power_service_subscribe_cb 3 3 true ⟨7, false, 0, 0⟩ =
      ⟨7, true, 0, 0⟩ ∧
    power_service_subscribe_cb 3 4 true ⟨7, false, 0, 0⟩ =
      ⟨7, false, 0, 0⟩ ∧
    power_service_subscribe_cb 3 3 true
        (power_service_subscribe_cb 3 3 true ⟨7, false, 0, 0⟩) =
      power_service_subscribe_cb 3 3 true ⟨7, false, 0, 0⟩ := by
  refine ⟨(subscribe_matching_sets_flag_idempotent 3 3 true ⟨7, false, 0, 0⟩).1 rfl,
    (subscribe_matching_sets_flag_idempotent 3 4 true ⟨7, false, 0, 0⟩).2.1 (by decide),
    (subscribe_matching_sets_flag_idempotent 3 3 true ⟨7, false, 0, 0⟩).2.2⟩

/-- C10: the subscribe callback never looks at the stored connection
handle: its effect on the notify flag is the same for every stored handle;
a matching subscribe received while the identity is none still sets the
flag, yet `may_notify` stays false; the flag then persists across a later
connect with a real handle and across unrelated subscribe events, until
the identity is next cleared to none. -/
theorem subscribe_ignores_connection_identity (pmvh attr : Nat) (b : Bool)
    (ch : Nat) (s : ServiceState) :
    (power_service_subscribe_cb pmvh attr b
        { s with power_conn_handle := ch }).power_notify_enabled =
      (power_service_subscribe_cb pmvh attr b s).power_notify_enabled ∧
    (s.power_conn_handle = BLE_HS_CONN_HANDLE_NONE →
      (power_service_subscribe_cb pmvh pmvh b s).power_notify_enabled = b ∧
      may_notify (power_service_subscribe_cb pmvh pmvh b s) = false) ∧
    (ch ≠ BLE_HS_CONN_HANDLE_NONE →
      (power_service_set_conn_handle ch
          (power_service_subscribe_cb pmvh pmvh true s)).power_notify_enabled =
        true) ∧
    (attr ≠ pmvh →
      (power_service_subscribe_cb pmvh attr b
          (power_service_subscribe_cb pmvh pmvh true s)).power_notify_enabled =
        true) ∧
    (power_service_set_conn_handle BLE_HS_CONN_HANDLE_NONE s).power_notify_enabled =
      false := by
  refine ⟨?_, ?_, ?_, ?_, ?_⟩
  · unfold power_service_subscribe_cb
    by_cases h : attr = pmvh <;> simp [h]
  · intro hnone
    unfold power_service_subscribe_cb may_notify
    simp [hnone]
  · intro hch
    unfold power_service_set_conn_handle power_service_subscribe_cb
    simp [hch]
  · intro hattr
    unfold power_service_subscribe_cb
    simp [hattr]
  · unfold power_service_set_conn_handle
    simp

/-- Witness for C10: while disconnected (handle = none), a matching
subscribe sets the flag but `may_notify` is still false; a later connect
with handle 7 keeps the flag; clearing to none resets it. -/
theorem subscribe_ignores_connection_identity_witness :
    (power_service_subscribe_cb 3 3 true
        ⟨BLE_HS_CONN_HANDLE_NONE, false, 0, 0⟩).power_notify_enabled = true ∧
    may_notify (power_service_subscribe_cb 3 3 true
        ⟨BLE_HS_CONN_HANDLE_NONE, false, 0, 0⟩) = false ∧
    (power_service_set_conn_handle 7 (power_service_subscribe_cb 3 3 true
        ⟨BLE_HS_CONN_HANDLE_NONE, false, 0, 0⟩)).power_notify_enabled = true ∧
    (power_service_set_conn_handle BLE_HS_CONN_HANDLE_NONE
        ⟨BLE_HS_CONN_HANDLE_NONE, true, 0, 0⟩).power_notify_enabled = false := by
  have h1 := subscribe_ignores_connection_identity 3 4 true 7
    ⟨BLE_HS_CONN_HANDLE_NONE, false, 0, 0⟩
  have h2 := subscribe_ignores_connection_identity 3 4 true 7
    ⟨BLE_HS_CONN_HANDLE_NONE, true, 0, 0⟩
  exact ⟨(h1.2.1 rfl).1, (h1.2.1 rfl).2, h1.2.2.1 (by decide), h2.2.2.2.2⟩

/-- C4 counterexample: with identity 5 already recorded (5 is not the none
sentinel) and the subscription flag true, a successful connect event for
handle 7 leaves the notify flag true — the handler merely overwrites the
handle and never clears the previous subscription state, so the claim
"immediately after any successful connect SubscriptionState is false" is
false on this input. -/
theorem connect_keeps_stale_subscription_cex :
    (5 : Nat) ≠ BLE_HS_CONN_HANDLE_NONE ∧
    (gap_event_handler 3 ⟨0, 0⟩ (.connect 7 0 0)
        ⟨5, true, 0, 0⟩).svc.power_conn_handle = 7 ∧
    (gap_event_handler 3 ⟨0, 0⟩ (.connect 7 0 0)
        ⟨5, true, 0, 0⟩).svc.power_notify_enabled = true := by
  decide

/-- C4 amended: a successful connect event (with successful descriptor
lookup, handle not the none sentinel) records the new identity by
overwriting the stored one and leaves the subscription flag unchanged —
it does not clear a previously recorded identity's subscription state.
In particular, from any state in which the flag is false (such as
Scenario 1's fresh advertising state), the post-state has the new
identity, subscription disabled and `may_notify` false. -/
theorem connect_overwrites_identity_keeps_flag (pmvh : Nat) (env : GapEnv)
    (ch : Nat) (s : ServiceState) (hch : ch ≠ BLE_HS_CONN_HANDLE_NONE) :
    (gap_event_handler pmvh env (.connect ch 0 0) s).svc.power_conn_handle = ch ∧
    (gap_event_handler pmvh env (.connect ch 0 0) s).svc.power_notify_enabled =
      s.power_notify_enabled ∧
    (s.power_notify_enabled = false →
      may_notify (gap_event_handler pmvh env (.connect ch 0 0) s).svc = false) := by
  have hc : gap_event_handler pmvh env (.connect ch 0 0) s =
      { svc := power_service_set_conn_handle ch s, adv := none, rc := 0 } := rfl
  rw [hc]
  unfold power_service_set_conn_handle
  rw [if_neg hch]
  exact ⟨rfl, rfl, fun h => by unfold may_notify; simp [h]⟩

/-- Witness for the amended C4: Scenario 1 — from the fresh state with no
identity and subscription off, ConnectEstablished(id=7, success) yields
identity 7, subscription still false, `may_notify` false. -/
theorem connect_overwrites_identity_keeps_flag_witness :
    (gap_event_handler 3 ⟨0, 0⟩ (.connect 7 0 0)
        ⟨BLE_HS_CONN_HANDLE_NONE, false, 0, 0⟩).svc.power_conn_handle = 7 ∧
    (gap_event_handler 3 ⟨0, 0⟩ (.connect 7 0 0)
        ⟨BLE_HS_CONN_HANDLE_NONE, false, 0, 0⟩).svc.power_notify_enabled = false ∧
    may_notify (gap_event_handler 3 ⟨0, 0⟩ (.connect 7 0 0)
        ⟨BLE_HS_CONN_HANDLE_NONE, false, 0, 0⟩).svc = false := by
  have h := connect_overwrites_identity_keeps_flag 3 ⟨0, 0⟩ 7
    ⟨BLE_HS_CONN_HANDLE_NONE, false, 0, 0⟩ (by decide)
  exact ⟨h.1, h.2.1, h.2.2 rfl⟩

/-- C5 counterexample: a permitted tick (gate open: handle 5, flag true)
whose mbuf allocation fails issues no send request, yet both counters have
advanced (10 to 11, 100 to 356) — the increments precede the allocation in
`send_power_notification`, so "counters are left unchanged on a failed
delivery" is false on this input. -/
theorem failed_delivery_still_advances_counters_cex :
    may_notify ⟨5, true, 10, 100⟩ = true ∧
    (send_power_notification 3 215 false 0 ⟨5, true, 10, 100⟩).sendReq = none ∧
    (send_power_notification 3 215 false 0
        ⟨5, true, 10, 100⟩).state.cumulative_crank_revs = 11 ∧
    (send_power_notification 3 215 false 0
        ⟨5, true, 10, 100⟩).state.last_crank_event_time = 356 := by
  decide

/-- C5 amended: the counters are mutated exactly once per permitted tick,
not once per delivered notification: on a permitted tick whose delivery
fails (allocation failure or send rejected), both counters have already
been advanced and stay advanced, the failure is only logged (no send
request is issued when allocation failed), and the gate is still open so
the next tick proceeds normally. -/
theorem permitted_tick_advances_even_on_failed_delivery (pmvh : Nat)
    (power : Int) (alloc : Bool) (rc : Int) (s : ServiceState)
    (hgate : may_notify s = true) (hfail : alloc = false ∨ rc ≠ 0) :
    (send_power_notification pmvh power alloc rc s).state.cumulative_crank_revs =
      (s.cumulative_crank_revs + 1) % 65536 ∧
    (send_power_notification pmvh power alloc rc s).state.last_crank_event_time =
      (s.last_crank_event_time + 256) % 65536 ∧
    (send_power_notification pmvh power alloc rc s).errorLogged = true ∧
    (alloc = false → (send_power_notification pmvh power alloc rc s).sendReq = none) ∧
    may_notify (send_power_notification pmvh power alloc rc s).state = true := by
  have hs := send_state_of_gate_open pmvh power alloc rc s hgate
  refine ⟨by rw [hs], by rw [hs], ?_, ?_, may_notify_after_send pmvh power alloc rc s hgate⟩
  · unfold send_power_notification
    rw [send_guard_false s hgate]
    rcases hfail with h | h
    · subst h; simp
    · cases alloc <;> simp [h]
  · intro h
    subst h
    unfold send_power_notification
    rw [send_guard_false s hgate]
    simp

/-- Witness for the amended C5: permitted tick, allocation fails, counters
advance from 10/100 to 11/356, error logged, no send request, gate still
open. -/
theorem permitted_tick_advances_even_on_failed_delivery_witness :
    (send_power_notification 3 215 false 0
        ⟨5, true, 10, 100⟩).state.cumulative_crank_revs = (10 + 1) % 65536 ∧
    (send_power_notification 3 215 false 0
        ⟨5, true, 10, 100⟩).state.last_crank_event_time = (100 + 256) % 65536 ∧
    (send_power_notification 3 215 false 0 ⟨5, true, 10, 100⟩).errorLogged = true ∧
    (send_power_notification 3 215 false 0 ⟨5, true, 10, 100⟩).sendReq = none ∧
    may_notify (send_power_notification 3 215 false 0 ⟨5, true, 10, 100⟩).state =
      true := by
  have h := permitted_tick_advances_even_on_failed_delivery 3 215 false 0
    ⟨5, true, 10, 100⟩ (by decide) (Or.inl rfl)
  exact ⟨h.1, h.2.1, h.2.2.1, h.2.2.2.1 rfl, h.2.2.2.2⟩

/-- C6: after N permitted ticks from any well-formed initial counters
(and for arbitrary per-tick power values, allocation outcomes and send
return codes), `cumulative_crank_revs` equals (initial + N) mod 2^16 and
`last_crank_event_time` equals (initial + 256·N) mod 2^16 — 256 being the
250 ms update period in 1/1024-second units; wraparound is ordinary
modular arithmetic, not an error. -/
theorem counters_after_N_permitted_ticks (pmvh : Nat) (power : Nat → Int)
    (alloc : Nat → Bool) (rc : Nat → Int) (N : Nat) (s : ServiceState)
    (hgate : may_notify s = true)
    (hr : s.cumulative_crank_revs < 65536)
    (ht : s.last_crank_event_time < 65536) :
    (tickN pmvh power alloc rc N s).cumulative_crank_revs =
      (s.cumulative_crank_revs + N) % 65536 ∧
    (tickN pmvh power alloc rc N s).last_crank_event_time =
      (s.last_crank_event_time + 256 * N) % 65536 := by
  induction N generalizing power alloc rc s with
  | zero =>
      unfold tickN
      constructor <;> omega
  | succ n ih =>
      unfold tickN
      rw [send_state_of_gate_open pmvh (power 0) (alloc 0) (rc 0) s hgate]
      have hmn : may_notify { s with
          cumulative_crank_revs := (s.cumulative_crank_revs + 1) % 65536,
          last_crank_event_time := (s.last_crank_event_time + 256) % 65536 } =
          true := by
        unfold may_notify at hgate ⊢
        exact hgate
      have h := ih (fun i => power (i + 1)) (fun i => alloc (i + 1))
        (fun i => rc (i + 1)) _ hmn (by dsimp only; omega) (by dsimp only; omega)
      rcases h with ⟨h1, h2⟩
      constructor
      · rw [h1]; dsimp only; omega
      · rw [h2]; dsimp only; omega

/-- Witness for C6: three permitted ticks from counters 65534/65535 wrap
to (65534+3) mod 2^16 and (65535+768) mod 2^16. -/
theorem counters_after_N_permitted_ticks_witness :
    (tickN 3 (fun _ => 215) (fun _ => true) (fun _ => 0) 3
        ⟨5, true, 65534, 65535⟩).cumulative_crank_revs = (65534 + 3) % 65536 ∧
    (tickN 3 (fun _ => 215) (fun _ => true) (fun _ => 0) 3
        ⟨5, true, 65534, 65535⟩).last_crank_event_time = (65535 + 256 * 3) % 65536 :=
  counters_after_N_permitted_ticks 3 (fun _ => 215) (fun _ => true) (fun _ => 0) 3
    ⟨5, true, 65534, 65535⟩ (by decide) (by decide) (by decide)

/-- C7: on every permitted tick with an in-range power value, the built
payload is the 8-byte little-endian record with flags 0x0020 (crank
revolution data present), parsing the bytes back recovers exactly the
encoded (power, cumulative revs, last event time) triple, and when the
buffer allocation succeeds that byte string is precisely what is handed to
the transport. -/
theorem notification_payload_layout_roundtrip (pmvh : Nat) (power : Int)
    (alloc : Bool) (rc : Int) (s : ServiceState)
    (hgate : may_notify s = true)
    (h1 : -32768 ≤ power) (h2 : power < 32768) :
    (send_power_notification pmvh power alloc rc s).packet.isSome = true ∧
    ∀ m, (send_power_notification pmvh power alloc rc s).packet = some m →
      m.flags = CPM_FLAG_CRANK_REV_DATA_PRESENT ∧
      (packetBytes m).length = 8 ∧
      parsePacket (packetBytes m) = some m ∧
      m.instantaneous_power = power ∧
      m.cumulative_crank_revs = (s.cumulative_crank_revs + 1) % 65536 ∧
      m.last_crank_event_time = (s.last_crank_event_time + 256) % 65536 ∧
      (alloc = true →
        (send_power_notification pmvh power alloc rc s).sendReq =
          some (s.power_conn_handle, pmvh, packetBytes m)) := by
  have hp := send_packet_of_gate_open pmvh power alloc rc s hgate
  constructor
  · rw [hp]; rfl
  · intro m hm
    rw [hp] at hm
    injection hm with hm
    subst hm
    refine ⟨rfl, packetBytes_length _, ?_, rfl, rfl, rfl, ?_⟩
    · exact parsePacket_packetBytes _
        (by dsimp only; unfold CPM_FLAG_CRANK_REV_DATA_PRESENT; omega) h1 h2
        (Nat.mod_lt _ (by omega)) (Nat.mod_lt _ (by omega))
    · intro halloc
      subst halloc
      unfold send_power_notification
      rw [send_guard_false s hgate]
      simp

/-- Witness for C7: the Scenario 3 tick (power 215 W) from counters
10/100 builds the packet (0x0020, 215, 11, 356) and parsing its bytes
recovers it exactly. -/
theorem notification_payload_layout_roundtrip_witness :
    (send_power_notification 3 215 true 0 ⟨5, true, 10, 100⟩).packet =
      some ⟨CPM_FLAG_CRANK_REV_DATA_PRESENT, 215, 11, 356⟩ ∧
    parsePacket (packetBytes ⟨CPM_FLAG_CRANK_REV_DATA_PRESENT, 215, 11, 356⟩) =
      some ⟨CPM_FLAG_CRANK_REV_DATA_PRESENT, 215, 11, 356⟩ := by
  have hp : (send_power_notification 3 215 true 0 ⟨5, true, 10, 100⟩).packet =
      some ⟨CPM_FLAG_CRANK_REV_DATA_PRESENT, 215, 11, 356⟩ := by decide
  have h := notification_payload_layout_roundtrip 3 215 true 0
    ⟨5, true, 10, 100⟩ (by decide) (by decide) (by decide)
  exact ⟨hp, ((h.2 _ hp).2.2).1⟩

/-- C9: when the transport rejects the advertising-start request itself
(either return code nonzero), the error is logged, advertising does not
start, at most one `ble_gap_adv_start` request was issued (no automatic
retry), and the events whose whole action is the restart (advertisement
complete, failed connect) leave the service state exactly as it was. -/
theorem adv_start_error_reported_no_retry (pmvh : Nat) (env : GapEnv)
    (reason : Int) (ch : Nat) (status connFindRc : Int) (s : ServiceState)
    (herr : env.rcSetFields ≠ 0 ∨ env.rcAdvStart ≠ 0) :
    (start_advertising env).errorLogged = true ∧
    (start_advertising env).started = false ∧
    (start_advertising env).advStartAttempts ≤ 1 ∧
    (gap_event_handler pmvh env (.advComplete reason) s).svc = s ∧
    (status ≠ 0 →
      (gap_event_handler pmvh env (.connect ch status connFindRc) s).svc = s) := by
  have hadv : (start_advertising env).errorLogged = true ∧
      (start_advertising env).started = false ∧
      (start_advertising env).advStartAttempts ≤ 1 := by
    unfold start_advertising
    by_cases h1 : env.rcSetFields = 0
    · have h2 : env.rcAdvStart ≠ 0 := by
        rcases herr with h | h
        · exact absurd h1 h
        · exact h
      rw [if_neg (not_not_intro h1), if_pos h2]
      exact ⟨rfl, rfl, Nat.le_refl 1⟩
    · rw [if_pos h1]
      exact ⟨rfl, rfl, Nat.zero_le 1⟩
  refine ⟨hadv.1, hadv.2.1, hadv.2.2, rfl, fun hst => ?_⟩
  show (if status = 0 then
      if connFindRc ≠ 0 then ({ svc := s, adv := none, rc := connFindRc } : StepOut)
      else { svc := power_service_set_conn_handle ch s, adv := none, rc := 0 }
    else { svc := s, adv := some (start_advertising env), rc := 0 }).svc = s
  rw [if_neg hst]

/-- Witness for C9: the transport rejects `ble_gap_adv_start` (code 7) —
error logged, advertising not started, a single attempt, and both the
advertisement-complete and the failed-connect dispatch leave the service
state unchanged. -/
theorem adv_start_error_reported_no_retry_witness :
    (start_advertising ⟨0, 7⟩).errorLogged = true ∧
    (start_advertising ⟨0, 7⟩).started = false ∧
    (start_advertising ⟨0, 7⟩).advStartAttempts ≤ 1 ∧
    (gap_event_handler 3 ⟨0, 7⟩ (.advComplete 0) ⟨5, true, 10, 100⟩).svc =
      ⟨5, true, 10, 100⟩ ∧
    (gap_event_handler 3 ⟨0, 7⟩ (.connect 9 531 0) ⟨5, true, 10, 100⟩).svc =
      ⟨5, true, 10, 100⟩ := by
  have h := adv_start_error_reported_no_retry 3 ⟨0, 7⟩ 0 9 531 0
    ⟨5, true, 10, 100⟩ (Or.inr (by decide))
  exact ⟨h.1, h.2.1, h.2.2.1, h.2.2.2.1, h.2.2.2.2 (by decide)⟩
